import Mathlib

/-!
Verification of the status-polling / chat front-end (StatusPanel.js, ChatPanel.js).

The development shallowly embeds the JavaScript/React source as pure Lean
functions over explicit state records.  Modelling decisions, each forced by
the source's runtime semantics:

* JSON values are an inductive `Json`, and `parseJson` follows the RFC 8259
  grammar that `JSON.parse` implements: fractional and exponent numerals,
  the strict leading-zero rule, only the legal string escapes, no raw
  control characters inside strings, surrogate-pair combination.  A numeric
  literal is kept as the exact decimal it denotes (mantissa and power of
  ten) where JavaScript rounds it to the nearest IEEE double; truthiness
  (mantissa nonzero), strict equality (exact value equality) and rendering
  agree with the double semantics everywhere the program could notice,
  except at extremes of precision or magnitude (e.g. `1e-999`, which a
  double rounds to `0`; renderings beyond `1e21` where JS switches to
  exponent notation) — the embedded program does no arithmetic and
  compares statuses that are strings in every observed payload, so these
  extremes are abstracted.  `JSON.parse` also accepts a lone surrogate
  escape, producing an ill-formed UTF-16 string with no Lean counterpart;
  the embedding reads such an escape as U+FFFD (the well-forming
  conversion), which changes no parse-success/failure outcome.
* JS truthiness (`if (x)`, `a && b`, `a || b`) is `jsTruthy`; strict equality
  `===` is `jsStrictEq`.  In JS, `===` on objects/arrays is *reference*
  equality; in `pollLambda` every composite operand of `===` is freshly
  produced by `JSON.parse` in the current tick, so such comparisons are
  always false, and `jsStrictEq` returns `false` on composites.
* `StatusPanel.js` starts its interval with `setInterval(pollLambda, 2000)`
  (line 100).  That captures the `pollLambda` closure of the render in which
  `startPolling` ran, so every subsequent tick reads the `statusMessage`
  *value captured at start time* (React state variables are per-render
  constants), not the current one.  `previousStatusRef`, `historyIdCounter`
  and `pollIntervalRef` are refs and are always current, and
  `setStatusMessage`/`setStatusHistory` update the real state.  The state
  field `frozenStatusMessage` records the captured value: `startPolling`
  sets it to the current `statusMessage`, and the fetch cycle reads it
  wherever the source reads `statusMessage` (lines 73 and 78), while writes
  go to the real `statusMessage` field.
* The number of live interval timers is tracked in the ghost field
  `activeTimers` (incremented by `setInterval`, decremented by
  `clearInterval`); `pollIntervalRef = some 2000` models a non-null ref
  holding the id of a repeating schedule with a 2000 ms period.
* Failures that the source catches (`fetch` rejection, non-2xx, `JSON.parse`
  throwing, property access on `null`) are modelled by total functions that
  return the caught-branch state, so "no exception propagates" corresponds
  to totality of the embedding.
-/

/-- A JSON value as produced by `JSON.parse` in the browser.  A numeric
literal is kept as the exact decimal `mantissa * 10 ^ exp10` it denotes;
JavaScript instead rounds it to the nearest IEEE double, an abstraction
discussed in the module comment. -/
inductive Json where
  | null
  | bool (value : Bool)
  | num (mantissa : Int) (exp10 : Int)
  | str (value : String)
  | arr (items : List Json)
  | obj (entries : List (String × Json))

/-- JS truthiness of a value: `null`, `false`, `0` and `""` are falsy,
everything else (including empty arrays and objects) is truthy. -/
def jsTruthy : Json → Bool
  | .null => false
  | .bool b => b
  | .num m _ => m != 0
  | .str s => s != ""
  | .arr _ => true
  | .obj _ => true

/-- Truthiness of a possibly-absent property (`undefined` is falsy). -/
def jsTruthyOpt : Option Json → Bool
  | none => false
  | some j => jsTruthy j

/-- Equality of the exact decimals `m1 * 10 ^ e1` and `m2 * 10 ^ e2`,
decided by cross-multiplying with the power of ten that aligns them. -/
def decNumEq (m1 e1 m2 e2 : Int) : Bool :=
  if e2 ≤ e1 then m1 * 10 ^ (e1 - e2).toNat == m2 else m1 == m2 * 10 ^ (e2 - e1).toNat

/-- JS strict equality `===`.  Primitives compare by value (numbers as the
exact decimals of their literals, see the module comment); objects and
arrays compare by reference, and every composite compared in the embedded
code is freshly parsed in the current tick, so those comparisons are false. -/
def jsStrictEq : Json → Json → Bool
  | .null, .null => true
  | .bool a, .bool b => a == b
  | .num m1 e1, .num m2 e2 => decNumEq m1 e1 m2 e2
  | .str a, .str b => a == b
  | _, _ => false

/-- Whether a value is JS `null`. -/
def Json.isNull : Json → Bool
  | .null => true
  | _ => false

/-- Property lookup on an object; JSON.parse keeps the *last* occurrence of a
duplicated key, so the last binding wins.  Property access on a non-object
primitive yields `undefined` (`none`); access on `null` throws and is handled
at each use site. -/
def lookupLast : List (String × Json) → String → Option Json
  | [], _ => none
  | (k, v) :: fs, key =>
    match lookupLast fs key with
    | some r => some r
    | none => if k = key then some v else none

/-- `getField j k` is `j.k` for an object, `undefined` (`none`) otherwise. -/
def getField : Json → String → Option Json
  | .obj fs, key => lookupLast fs key
  | _, _ => none

/-- JSON whitespace accepted between tokens (space, tab, LF, CR). -/
def jsonWs (c : Char) : Bool :=
  c.toNat = 32 || c.toNat = 9 || c.toNat = 10 || c.toNat = 13

/-- Drop leading JSON whitespace. -/
def skipWs (cs : List Char) : List Char := cs.dropWhile jsonWs

/-- ASCII decimal digit test, on code points. -/
def isDecDigit (c : Char) : Bool :=
  decide (48 ≤ c.toNat) && decide (c.toNat ≤ 57)

/-- Numeric value of a decimal digit (code point minus that of `0`). -/
def decDigit (c : Char) : Nat := c.toNat - 48

/-- Numeric value of a hexadecimal digit, if any, by code-point ranges. -/
def hexNibble (c : Char) : Option Nat :=
  let n := c.toNat
  if decide (48 ≤ n) && decide (n ≤ 57) then some (n - 48)
  else if decide (97 ≤ n) && decide (n ≤ 102) then some (n - 87)
  else if decide (65 ≤ n) && decide (n ≤ 70) then some (n - 55)
  else none

/-- Check that the input starts with the given characters and drop them. -/
def dropKeywordChars : List Char → List Char → Option (List Char)
  | [], cs => some cs
  | t :: ts, c :: cs => if c = t then dropKeywordChars ts cs else none
  | _ :: _, [] => none

/-- Consume the remaining characters of a keyword such as `null`; `some`
the rest of the input when they are all present. -/
def dropKeyword (kw : String) (cs : List Char) : Option (List Char) :=
  dropKeywordChars kw.toList cs

/-- Consume a maximal run of decimal digits, returning their value, how
many there were, and the rest of the input. -/
def digitRun : List Char → Nat → Nat → Nat × Nat × List Char
  | [], acc, cnt => (acc, cnt, [])
  | c :: cs, acc, cnt =>
    if isDecDigit c then digitRun cs (acc * 10 + decDigit c) (cnt + 1)
    else (acc, cnt, c :: cs)

/-- The `frac` and `exp` parts of the JSON number grammar, given the sign
and the already-parsed integer part: an optional `.` followed by one or
more digits, then an optional `e`/`E`, optional sign and one or more
digits.  A bare `.`, `e` or sign with no digit is a syntax error (`none`),
as in `JSON.parse`.  Yields the exact decimal as mantissa and power of
ten. -/
def numberTail (neg : Bool) (ip : Nat) (cs : List Char) : Option (Int × Int × List Char) :=
  let fr : Option (Nat × Nat × List Char) :=
    match cs with
    | c :: r =>
      if c = '.' then
        match r with
        | d :: _ => if isDecDigit d then some (digitRun r 0 0) else none
        | [] => none
      else some (0, 0, cs)
    | [] => some (0, 0, cs)
  match fr with
  | none => none
  | some (fv, fk, cs2) =>
    let ex : Option (Int × List Char) :=
      match cs2 with
      | c :: r =>
        if c = 'e' || c = 'E' then
          let sr : Int × List Char :=
            match r with
            | s0 :: r2 =>
              if s0 = '+' then (1, r2) else if s0 = '-' then (-1, r2) else (1, r)
            | [] => (1, r)
          match sr.2 with
          | d :: _ =>
            if isDecDigit d then
              let p := digitRun sr.2 0 0
              some (sr.1 * Int.ofNat p.1, p.2.2)
            else none
          | [] => none
        else some (0, cs2)
      | [] => some (0, cs2)
    match ex with
    | none => none
    | some (ev, cs3) =>
      let mag : Int := Int.ofNat (ip * 10 ^ fk + fv)
      some (if neg then -mag else mag, ev - Int.ofNat fk, cs3)

/-- A JSON numeric literal per the RFC 8259 grammar: optional minus, then
either a single `0` or a nonzero digit followed by more digits (so a
leading zero as in `01` ends the integer part after the `0`, and the
stray digit is a syntax error in whatever context follows, exactly as in
`JSON.parse`), then `numberTail`. -/
def parseNumberLit (cs : List Char) : Option (Int × Int × List Char) :=
  let sg : Bool × List Char :=
    match cs with
    | c :: r => if c = '-' then (true, r) else (false, cs)
    | [] => (false, cs)
  match sg.2 with
  | c :: r =>
    if c = '0' then numberTail sg.1 0 r
    else if isDecDigit c then
      let p := digitRun (c :: r) 0 0
      numberTail sg.1 p.1 p.2.2
    else none
  | [] => none

/-- Decode a `\uXXXX` escape starting at its four hex digits.  A high
surrogate immediately followed by a `\uXXXX` low surrogate combines into
the astral code point, as the pair denotes in a JS string.  `JSON.parse`
also accepts a *lone* surrogate escape, producing an ill-formed UTF-16
string; such strings have no Lean counterpart, and the embedding follows
the standard well-forming conversion by reading a lone surrogate as
U+FFFD (module comment). -/
def parseUnicodeEscape : List Char → Option (Char × List Char)
  | h1 :: h2 :: h3 :: h4 :: cs3 =>
    match hexNibble h1, hexNibble h2, hexNibble h3, hexNibble h4 with
    | some a, some b, some c2, some d =>
      let u := a * 4096 + b * 256 + c2 * 16 + d
      if 55296 ≤ u ∧ u ≤ 56319 then
        match cs3 with
        | '\\' :: 'u' :: g1 :: g2 :: g3 :: g4 :: cs4 =>
          match hexNibble g1, hexNibble g2, hexNibble g3, hexNibble g4 with
          | some a2, some b2, some c3, some d2 =>
            let u2 := a2 * 4096 + b2 * 256 + c3 * 16 + d2
            if 56320 ≤ u2 ∧ u2 ≤ 57343 then
              some (Char.ofNat (65536 + (u - 55296) * 1024 + (u2 - 56320)), cs4)
            else some (Char.ofNat 65533, cs3)
          | _, _, _, _ => some (Char.ofNat 65533, cs3)
        | _ => some (Char.ofNat 65533, cs3)
      else if 56320 ≤ u ∧ u ≤ 57343 then some (Char.ofNat 65533, cs3)
      else some (Char.ofNat u, cs3)
    | _, _, _, _ => none
  | _ => none

/-- Parse the body of a JSON string literal (after the opening quote).
Only the eight named escapes and `\uXXXX` are legal, and an *unescaped*
control character (code point below 32) is a syntax error, as in
`JSON.parse`.  Fuel-indexed for termination. -/
def parseStringChars : Nat → List Char → Option (String × List Char)
  | 0, _ => none
  | _ + 1, [] => none
  | fuel + 1, c :: cs =>
    if c = '"' then some ("", cs)
    else if c = '\\' then
      match cs with
      | [] => none
      | e :: cs2 =>
        let esc : Option (Char × List Char) :=
          if e = '"' then some ('"', cs2)
          else if e = '\\' then some ('\\', cs2)
          else if e = '/' then some ('/', cs2)
          else if e = 'n' then some ('\n', cs2)
          else if e = 't' then some ('\t', cs2)
          else if e = 'r' then some ('\r', cs2)
          else if e = 'b' then some (Char.ofNat 8, cs2)
          else if e = 'f' then some (Char.ofNat 12, cs2)
          else if e = 'u' then parseUnicodeEscape cs2
          else none
        match esc with
        | some (ch, rest) =>
          (parseStringChars fuel rest).map (fun p => (String.mk (ch :: p.1.toList), p.2))
        | none => none
    else if c.toNat < 32 then none
    else
      (parseStringChars fuel cs).map (fun p => (String.mk (c :: p.1.toList), p.2))

mutual

/-- Parse one JSON value (fuel-indexed; `parseJson` supplies ample fuel). -/
def parseValue : Nat → List Char → Option (Json × List Char)
  | 0, _ => none
  | fuel + 1, cs =>
    match skipWs cs with
    | [] => none
    | c :: rest =>
      if c = 'n' then
        (dropKeyword "ull" rest).map (fun r => (Json.null, r))
      else if c = 't' then
        (dropKeyword "rue" rest).map (fun r => (Json.bool true, r))
      else if c = 'f' then
        (dropKeyword "alse" rest).map (fun r => (Json.bool false, r))
      else if c = '"' then
        (parseStringChars (fuel + 1) rest).map (fun p => (Json.str p.1, p.2))
      else if c = '-' || isDecDigit c then
        (parseNumberLit (c :: rest)).map (fun p => (Json.num p.1 p.2.1, p.2.2))
      else if c = Char.ofNat 91 then
        match skipWs rest with
        | d :: r => if d = Char.ofNat 93 then some (Json.arr [], r)
                    else (parseItems fuel rest).map (fun p => (Json.arr p.1, p.2))
        | [] => none
      else if c = Char.ofNat 123 then
        match skipWs rest with
        | d :: r => if d = Char.ofNat 125 then some (Json.obj [], r)
                    else (parseFields fuel rest).map (fun p => (Json.obj p.1, p.2))
        | [] => none
      else none

/-- Parse the comma-separated elements of a non-empty array, through `]`. -/
def parseItems : Nat → List Char → Option (List Json × List Char)
  | 0, _ => none
  | fuel + 1, cs =>
    match parseValue fuel cs with
    | none => none
    | some (v, r) =>
      match skipWs r with
      | c :: r2 =>
        if c = ',' then (parseItems fuel r2).map (fun p => (v :: p.1, p.2))
        else if c = Char.ofNat 93 then some ([v], r2)
        else none
      | [] => none

/-- Parse the comma-separated members of a non-empty object, through the
closing brace. -/
def parseFields : Nat → List Char → Option (List (String × Json) × List Char)
  | 0, _ => none
  | fuel + 1, cs =>
    match skipWs cs with
    | c :: r =>
      if c = '"' then
        match parseStringChars (fuel + 1) r with
        | none => none
        | some (k, r2) =>
          match skipWs r2 with
          | d :: r3 =>
            if d = ':' then
              match parseValue fuel r3 with
              | none => none
              | some (v, r4) =>
                match skipWs r4 with
                | e :: r5 =>
                  if e = ',' then
                    (parseFields fuel r5).map (fun p => ((k, v) :: p.1, p.2))
                  else if e = Char.ofNat 125 then some ([(k, v)], r5)
                  else none
                | [] => none
            else none
          | [] => none
      else none
    | [] => none

end

/-- `JSON.parse`: `some` the parsed value on success, `none` when the source
would throw a `SyntaxError`.  Trailing non-whitespace is rejected. -/
def parseJson (s : String) : Option Json :=
  match parseValue (2 * s.length + 2) s.toList with
  | some (j, rest) => if (skipWs rest).isEmpty then some j else none
  | none => none

/-- Lower-case hexadecimal digit, for `\u00XX` escapes in `jsonStringify`. -/
def hexDigit (n : Nat) : String :=
  String.singleton (if n < 10 then Char.ofNat ('0'.toNat + n) else Char.ofNat ('a'.toNat + n - 10))

/-- Escape one character as inside a JSON string literal. -/
def escapeChar (c : Char) : String :=
  if c = '"' then "\\\""
  else if c = '\\' then "\\\\"
  else if c = '\n' then "\\n"
  else if c = '\t' then "\\t"
  else if c = '\r' then "\\r"
  else if c.toNat = 8 then "\\b"
  else if c.toNat = 12 then "\\f"
  else if c.toNat < 32 then "\\u00" ++ hexDigit (c.toNat / 16) ++ hexDigit (c.toNat % 16)
  else String.singleton c

/-- Escape a string as inside a JSON string literal. -/
def escapeString (s : String) : String := String.join (s.toList.map escapeChar)

/-- Render the exact decimal `m * 10 ^ e` the way JS prints the
corresponding double for the ordinary magnitudes: an integer when `e ≥ 0`,
otherwise a decimal point with the trailing fractional zeros dropped
(`String(-0)` is `"0"`, which `m = 0` gives for free). -/
def renderDecNumber (m e : Int) : String :=
  if 0 ≤ e then toString (m * 10 ^ e.toNat)
  else
    let k := (-e).toNat
    let ds := toString m.natAbs
    let pad := if ds.length < k + 1
      then String.mk (List.replicate (k + 1 - ds.length) '0') ++ ds else ds
    let ip := pad.take (pad.length - k)
    let fp := pad.drop (pad.length - k)
    let fstrip := String.mk ((fp.toList.reverse.dropWhile (fun c => c = '0')).reverse)
    (if m < 0 then "-" else "") ++ (if fstrip.isEmpty then ip else ip ++ "." ++ fstrip)

mutual

/-- `JSON.stringify` (no undefined/function values occur in the embedding). -/
def jsonStringify : Json → String
  | .null => "null"
  | .bool true => "true"
  | .bool false => "false"
  | .num m e => renderDecNumber m e
  | .str s => "\"" ++ escapeString s ++ "\""
  | .arr xs => String.singleton (Char.ofNat 91) ++ stringifyItems xs ++ String.singleton (Char.ofNat 93)
  | .obj fs => String.singleton (Char.ofNat 123) ++ stringifyFields fs ++ String.singleton (Char.ofNat 125)

/-- Elements of an array under `JSON.stringify`. -/
def stringifyItems : List Json → String
  | [] => ""
  | [x] => jsonStringify x
  | x :: xs => jsonStringify x ++ "," ++ stringifyItems xs

/-- Members of an object under `JSON.stringify`. -/
def stringifyFields : List (String × Json) → String
  | [] => ""
  | [(k, v)] => "\"" ++ escapeString k ++ "\":" ++ jsonStringify v
  | (k, v) :: fs => "\"" ++ escapeString k ++ "\":" ++ jsonStringify v ++ "," ++ stringifyFields fs

end

mutual

/-- JS `String(x)` coercion, as applied by `JSON.parse` to a non-string
argument: arrays join their elements with commas (null elements becoming
empty), objects become "[object Object]". -/
def jsToString : Json → String
  | .null => "null"
  | .bool true => "true"
  | .bool false => "false"
  | .num m e => renderDecNumber m e
  | .str s => s
  | .arr xs => jsToStringItems xs
  | .obj _ => "[object Object]"

/-- Array elements under JS `String(x)` coercion. -/
def jsToStringItems : List Json → String
  | [] => ""
  | [Json.null] => ""
  | [x] => jsToString x
  | Json.null :: xs => "," ++ jsToStringItems xs
  | x :: xs => jsToString x ++ "," ++ jsToStringItems xs

end

/-- One entry of the status history (`addToHistory`, StatusPanel.js 39-46). -/
structure StatusEntry where
  id : Nat
  status : Json
  timestamp : Nat

/-- The state of the status panel.  Fields mirror the component's state
hooks and refs; `frozenStatusMessage` and `activeTimers` are explained in
the module comment. -/
structure PollState where
  statusMessage : Json
  statusHistory : List StatusEntry
  isPolling : Bool
  connectionStatus : String
  pollIntervalRef : Option Nat
  historyIdCounter : Nat
  previousStatus : Json
  frozenStatusMessage : Json
  activeTimers : Nat

/-- The component's state at mount. -/
def initialPollState : PollState :=
  { statusMessage := Json.str ""
    statusHistory := []
    isPolling := false
    connectionStatus := "Ready"
    pollIntervalRef := none
    historyIdCounter := 0
    previousStatus := Json.str ""
    frozenStatusMessage := Json.str ""
    activeTimers := 0 }

/-- The outcome of one `fetch` of the `/status` endpoint, as seen by the
cycle: either the promise rejected, or a response with its `ok` flag and
body text arrived. -/
inductive FetchResult where
  | networkError
  | success (ok : Bool) (body : String)

/-- The synthesized processing indicator text (StatusPanel.js line 72). -/
def processingStatus : String := "processing..."

/-- `addToHistory` (StatusPanel.js 39-46): append an entry carrying the
current counter value and post-increment the counter. -/
def addToHistory (now : Nat) (st : PollState) (status : Json) : PollState :=
  { st with
    statusHistory :=
      st.statusHistory ++ [{ id := st.historyIdCounter, status := status, timestamp := now }]
    historyIdCounter := st.historyIdCounter + 1 }

/-- The decision policy of `pollLambda` once a truthy `data.status` is in
hand (StatusPanel.js 67-86).  `frozen` is the `statusMessage` value the
running closure captured (lines 73 and 78 read it); writes go to the real
`statusMessage`. -/
def pollStatusLogic (frozen : Json) (now : Nat) (st : PollState) (currentStatus : Json) :
    PollState :=
  if jsStrictEq currentStatus st.previousStatus
      && !jsStrictEq currentStatus (Json.str "initial status") then
    if !jsStrictEq frozen (Json.str processingStatus) then
      { addToHistory now st (Json.str processingStatus) with
        statusMessage := Json.str processingStatus
        connectionStatus := "Polling - Processing" }
    else st
  else if !jsStrictEq currentStatus frozen then
    { addToHistory now st currentStatus with
      statusMessage := currentStatus
      previousStatus := currentStatus
      connectionStatus := "Polling - Status updated" }
  else
    { st with connectionStatus := "Polling - No change" }

/-- The caught-exception / non-ok branch: only the connection label changes
(StatusPanel.js 57-60 and 88-91). -/
def errorState (st : PollState) : PollState := { st with connectionStatus := "Error" }

/-- Line 64: `(parsed.statusCode && parsed.body) ? JSON.parse(parsed.body) :
parsed`.  `none` models the inner `JSON.parse` throwing (caught at line 88);
a non-string truthy `body` is coerced to a string first, as `JSON.parse`
does. -/
def extractPayload (parsed : Json) : Option Json :=
  if jsTruthyOpt (getField parsed "statusCode") && jsTruthyOpt (getField parsed "body") then
    parseJson (jsToString ((getField parsed "body").getD Json.null))
  else
    some parsed

/-- `pollLambda` from line 64 on, given the already-parsed response body.
Property access on a `null` value throws a TypeError which the surrounding
`try` catches, hence the `isNull` guards. -/
def pollData (frozen : Json) (now : Nat) (st : PollState) (parsed : Json) : PollState :=
  if parsed.isNull then errorState st
  else
    match extractPayload parsed with
    | none => errorState st
    | some d =>
      if d.isNull then errorState st
      else
        match getField d "status" with
        | some v => if jsTruthy v then pollStatusLogic frozen now st v else st
        | none => st

/-- One fetch cycle, `pollLambda` (StatusPanel.js 48-92).  The closure's
captured `statusMessage` is `st.frozenStatusMessage` (module comment). -/
def pollLambda (now : Nat) (st : PollState) (r : FetchResult) : PollState :=
  match r with
  | .networkError => errorState st
  | .success ok body =>
    if ok then
      match parseJson body with
      | none => errorState st
      | some parsed => pollData st.frozenStatusMessage now st parsed
    else errorState st

/-- The writes `startPolling` performs before its immediate fetch
(StatusPanel.js 96-98): mark active, set the label, reset the tracker, and
capture the current `statusMessage` in the new closure. -/
def startReset (st : PollState) : PollState :=
  { st with
    isPolling := true
    connectionStatus := "Polling started"
    previousStatus := Json.str ""
    frozenStatusMessage := st.statusMessage }

/-- `startPolling` (StatusPanel.js 94-101): no-op when the interval ref is
already set; otherwise reset via `startReset`, run one immediate cycle and
schedule a 2000 ms repeating interval. -/
def startPolling (now : Nat) (st : PollState) (r : FetchResult) : PollState :=
  if st.pollIntervalRef.isSome then st
  else
    let st2 := pollLambda now (startReset st) r
    { st2 with pollIntervalRef := some 2000, activeTimers := st2.activeTimers + 1 }

/-- `stopPolling` (StatusPanel.js 103-110): cancel the interval if one is
referenced, mark inactive. -/
def stopPolling (st : PollState) : PollState :=
  { st with
    activeTimers := st.activeTimers - (if st.pollIntervalRef.isSome then 1 else 0)
    pollIntervalRef := none
    isPolling := false
    connectionStatus := "Stopped" }

/-- `clearHistory` (StatusPanel.js 112-117). -/
def clearHistory (st : PollState) : PollState :=
  { st with
    statusHistory := []
    statusMessage := Json.str ""
    historyIdCounter := 0
    previousStatus := Json.str "" }

/-- The public operations that can touch the panel's state. -/
inductive PanelOp where
  | poll (now : Nat) (r : FetchResult)
  | start (now : Nat) (r : FetchResult)
  | stop
  | clear

/-- Apply one operation. -/
def applyOp (st : PollState) : PanelOp → PollState
  | .poll now r => pollLambda now st r
  | .start now r => startPolling now st r
  | .stop => stopPolling st
  | .clear => clearHistory st

/-- Apply a sequence of operations, oldest first. -/
def applyOps (st : PollState) (ops : List PanelOp) : PollState :=
  ops.foldl applyOp st

/-- Body text of a `/status` response whose payload is `{"status": s}`, for
concrete runs. -/
def statusBody (s : String) : String := "\x7b\"status\":\"" ++ s ++ "\"\x7d"

/-- JS whitespace as recognised by `String.prototype.trim` (the common
WhiteSpace and LineTerminator code points). -/
def isJsWhitespace (c : Char) : Bool :=
  c = ' ' || c = '\t' || c = '\n' || c = '\r' ||
  c = Char.ofNat 11 || c = Char.ofNat 12 || c = Char.ofNat 160 ||
  c = Char.ofNat 65279 || c = Char.ofNat 8232 || c = Char.ofNat 8233

/-- `String.prototype.trim`. -/
def jsTrim (s : String) : String :=
  String.mk (((s.toList.dropWhile isJsWhitespace).reverse.dropWhile isJsWhitespace).reverse)

/-- Metadata spread into a chat message by `addMessage` (ChatPanel.js 333). -/
structure ChatMeta where
  processingTime : Option Json
  status : Option Json
  error : Bool

/-- `addMessage` with no metadata. -/
def emptyMeta : ChatMeta := { processingTime := none, status := none, error := false }

/-- One chat message (ChatPanel.js 334-341). -/
structure ChatMessage where
  id : Nat
  text : Json
  sender : String
  timestamp : Nat
  meta : ChatMeta

/-- The chat panel's state hooks and ref. -/
structure ChatState where
  messages : List ChatMessage
  inputValue : String
  isProcessing : Bool
  connectionStatus : String
  messageIdCounter : Nat

/-- The chat panel's state at mount. -/
def initialChatState : ChatState :=
  { messages := []
    inputValue := ""
    isProcessing := false
    connectionStatus := "Connected"
    messageIdCounter := 0 }

/-- `addMessage` (ChatPanel.js 333-344): append a message carrying the
current counter value and post-increment the counter. -/
def addChatMessage (now : Nat) (st : ChatState) (text : Json) (sender : String)
    (meta : ChatMeta) : ChatState :=
  { st with
    messages := st.messages ++
      [{ id := st.messageIdCounter, text := text, sender := sender, timestamp := now,
         meta := meta }]
    messageIdCounter := st.messageIdCounter + 1 }

/-- The outward effects of submitting the chat form: whether the
`chatMessageSent` event was dispatched, and the message text of the HTTP
POST to `/chat` when one was issued. -/
structure SubmitEffects where
  notified : Bool
  request : Option String

/-- `handleSubmit` (ChatPanel.js 408-420) through the point where
`sendToLambda` has issued its request (ChatPanel.js 350-361): guard on
empty/whitespace-only input or an in-flight send, else clear the input,
append the user message, dispatch the notification event and start the
send (which sets the processing flag and connection label before the
response arrives).  The handling of the response is modelled separately by
`chatExtract`. -/
def handleSubmit (now : Nat) (st : ChatState) : ChatState × SubmitEffects :=
  if (jsTrim st.inputValue) == "" || st.isProcessing then
    (st, { notified := false, request := none })
  else
    let userMessage := jsTrim st.inputValue
    let st1 := { st with inputValue := "" }
    let st2 := addChatMessage now st1 (Json.str userMessage) "user" emptyMeta
    ({ st2 with isProcessing := true, connectionStatus := "Processing..." },
     { notified := true, request := some userMessage })

/-- JS `a || b` where `a` is a possibly-absent property: the property's
value if it is truthy, otherwise `b`. -/
def jsOrElse (v : Option Json) (d : Json) : Json :=
  match v with
  | some x => if jsTruthy x then x else d
  | none => d

/-- `p.response || p.message || p.body || fallback` — the extraction chain
`sendToLambda` applies to a payload (ChatPanel.js 377, 383, 387). -/
def chatPick (p : Json) (fallback : Json) : Json :=
  jsOrElse (getField p "response")
    (jsOrElse (getField p "message") (jsOrElse (getField p "body") fallback))

/-- The bot-message extraction of `sendToLambda` (ChatPanel.js 370-389),
given the parsed response `data`.  Callers guard `data = null` (property
access on `null` throws into the outer catch, modelled by `sendExtract`).
The envelope branch with a string body parses it, falling back to the raw
body string when that parse throws or when the parsed body is `null` (the
inner catch at line 379 also catches the property access on `null`). -/
def chatExtract (data : Json) : Json :=
  if jsTruthyOpt (getField data "statusCode") && jsTruthyOpt (getField data "body") then
    match (getField data "body").getD Json.null with
    | Json.str s =>
      match parseJson s with
      | some pb => if pb.isNull then Json.str s else chatPick pb (Json.str s)
      | none => Json.str s
    | bodyVal => chatPick bodyVal (Json.str (jsonStringify bodyVal))
  else
    chatPick data (Json.str (jsonStringify data))

/-- `sendToLambda`'s extraction including the throw on a `null` response
value (`data.statusCode` on `null` raises into the catch at line 399). -/
def sendExtract (data : Json) : Option Json :=
  if data.isNull then none else some (chatExtract data)

/-- The ids of the history entries, in list order. -/
def historyIds (st : PollState) : List Nat := st.statusHistory.map StatusEntry.id

/-- Ids are strictly increasing in insertion order (hence unique) and below
the counter that the next insertion will use. -/
def idsOk (st : PollState) : Prop :=
  List.Pairwise (· < ·) (historyIds st) ∧ ∀ i ∈ historyIds st, i < st.historyIdCounter

/-- How one fetch cycle may move the history: untouched, or exactly one
entry appended at the end, carrying the counter value, with the counter
bumped. -/
def HistStep (st st2 : PollState) : Prop :=
  (st2.statusHistory = st.statusHistory ∧ st2.historyIdCounter = st.historyIdCounter)
  ∨ ∃ v t, st2.statusHistory
        = st.statusHistory ++ [{ id := st.historyIdCounter, status := v, timestamp := t }]
      ∧ st2.historyIdCounter = st.historyIdCounter + 1

/-- Every entry's id is its index: the ids read `0, 1, ..., counter - 1`. -/
def IdxInv (st : PollState) : Prop := historyIds st = List.range st.historyIdCounter

/-- Fresh session polled with raw statuses `A, A, A, B` (first fetch issued
by `startPolling`, the rest by interval ticks). -/
def c1run : PollState :=
  pollLambda 3
    (pollLambda 2
      (pollLambda 1
        (startPolling 0 initialPollState (FetchResult.success true (statusBody "A")))
        (FetchResult.success true (statusBody "A")))
      (FetchResult.success true (statusBody "A")))
    (FetchResult.success true (statusBody "B"))

/-- Fresh session polled with `"initial status"` twice. -/
def c5run2 : PollState :=
  pollLambda 1
    (startPolling 0 initialPollState (FetchResult.success true (statusBody "initial status")))
    (FetchResult.success true (statusBody "initial status"))

/-- ... and then with `"done"`. -/
def c5run3 : PollState := pollLambda 2 c5run2 (FetchResult.success true (statusBody "done"))

theorem histStep_pollStatusLogic (frozen : Json) (now : Nat) (st : PollState) (v : Json) :
    HistStep st (pollStatusLogic frozen now st v) := by
  unfold pollStatusLogic
  split
  · split
    · exact Or.inr ⟨Json.str processingStatus, now, rfl, rfl⟩
    · exact Or.inl ⟨rfl, rfl⟩
  · split
    · exact Or.inr ⟨v, now, rfl, rfl⟩
    · exact Or.inl ⟨rfl, rfl⟩

theorem histStep_pollData (frozen : Json) (now : Nat) (st : PollState) (parsed : Json) :
    HistStep st (pollData frozen now st parsed) := by
  unfold pollData
  split
  · exact Or.inl ⟨rfl, rfl⟩
  · split
    · exact Or.inl ⟨rfl, rfl⟩
    · split
      · exact Or.inl ⟨rfl, rfl⟩
      · split
        · split
          · exact histStep_pollStatusLogic _ _ _ _
          · exact Or.inl ⟨rfl, rfl⟩
        · exact Or.inl ⟨rfl, rfl⟩

theorem histStep_pollLambda (now : Nat) (st : PollState) (r : FetchResult) :
    HistStep st (pollLambda now st r) := by
  unfold pollLambda
  split
  · exact Or.inl ⟨rfl, rfl⟩
  · split
    · split
      · exact Or.inl ⟨rfl, rfl⟩
      · exact histStep_pollData _ _ _ _
    · exact Or.inl ⟨rfl, rfl⟩

theorem histStep_startPolling (now : Nat) (st : PollState) (r : FetchResult) :
    HistStep st (startPolling now st r) := by
  unfold startPolling
  split
  · exact Or.inl ⟨rfl, rfl⟩
  · exact histStep_pollLambda now _ r

theorem pollStatusLogic_frame (frozen : Json) (now : Nat) (st : PollState) (v : Json) :
    (pollStatusLogic frozen now st v).pollIntervalRef = st.pollIntervalRef
    ∧ (pollStatusLogic frozen now st v).activeTimers = st.activeTimers
    ∧ (pollStatusLogic frozen now st v).isPolling = st.isPolling
    ∧ (pollStatusLogic frozen now st v).frozenStatusMessage = st.frozenStatusMessage := by
  unfold pollStatusLogic
  split
  · split <;> exact ⟨rfl, rfl, rfl, rfl⟩
  · split <;> exact ⟨rfl, rfl, rfl, rfl⟩

theorem pollLambda_frame (now : Nat) (st : PollState) (r : FetchResult) :
    (pollLambda now st r).pollIntervalRef = st.pollIntervalRef
    ∧ (pollLambda now st r).activeTimers = st.activeTimers
    ∧ (pollLambda now st r).isPolling = st.isPolling
    ∧ (pollLambda now st r).frozenStatusMessage = st.frozenStatusMessage := by
  unfold pollLambda pollData
  split
  · exact ⟨rfl, rfl, rfl, rfl⟩
  · split
    · split
      · exact ⟨rfl, rfl, rfl, rfl⟩
      · split
        · exact ⟨rfl, rfl, rfl, rfl⟩
        · split
          · exact ⟨rfl, rfl, rfl, rfl⟩
          · split
            · exact ⟨rfl, rfl, rfl, rfl⟩
            · split
              · split
                · exact pollStatusLogic_frame _ _ _ _
                · exact ⟨rfl, rfl, rfl, rfl⟩
              · exact ⟨rfl, rfl, rfl, rfl⟩
    · exact ⟨rfl, rfl, rfl, rfl⟩
theorem idsOk_histStep {st st2 : PollState} (h : idsOk st) (hs : HistStep st st2) :
    idsOk st2 := by
  rcases hs with ⟨h1, h2⟩ | ⟨v, t, h1, h2⟩
  · unfold idsOk historyIds at h ⊢
    rw [h1, h2]
    exact h
  · unfold idsOk historyIds at h ⊢
    rw [h1, h2, List.map_append]
    constructor
    · rw [List.pairwise_append]
      refine ⟨h.1, List.pairwise_singleton _ _, ?_⟩
      intro x hx y hy
      simp only [List.map_cons, List.map_nil, List.mem_singleton] at hy
      subst hy
      exact h.2 x hx
    · intro i hi
      rcases List.mem_append.mp hi with hi | hi
      · exact Nat.lt_succ_of_lt (h.2 i hi)
      · simp only [List.map_cons, List.map_nil, List.mem_singleton] at hi
        subst hi
        exact Nat.lt_succ_self _
theorem idxInv_histStep {st st2 : PollState} (h : IdxInv st) (hs : HistStep st st2) :
    IdxInv st2 := by
  rcases hs with ⟨h1, h2⟩ | ⟨v, t, h1, h2⟩
  · unfold IdxInv historyIds at h ⊢
    rw [h1, h2]
    exact h
  · unfold IdxInv historyIds at h ⊢
    rw [h1, h2, List.map_append, List.range_succ, h]
    rfl
theorem idxInv_applyOp {st : PollState} (h : IdxInv st) (op : PanelOp) :
    IdxInv (applyOp st op) := by
  cases op with
  | poll now r => exact idxInv_histStep h (histStep_pollLambda now st r)
  | start now r => exact idxInv_histStep h (histStep_startPolling now st r)
  | stop => exact h
  | clear => rfl
theorem idxInv_applyOps {st : PollState} (h : IdxInv st) (ops : List PanelOp) :
    IdxInv (applyOps st ops) := by
  induction ops generalizing st with
  | nil => exact h
  | cons op ops ih => exact ih (idxInv_applyOp h op)
/-- C1: evaluation of the fetch cycle on the raw-status sequence
`A, A, A, B` from a fresh session.  The run of consecutive repeats of the
non-sentinel status `A` appends a `"processing..."` entry on *each* repeat
tick (two entries here), not exactly one for the whole run: the guard at
StatusPanel.js line 73 compares against the `statusMessage` value captured
by the interval's closure when polling started (the empty string), which is
never the processing-indicator text. -/
theorem c1_processing_appended_each_repeat :
    c1run.statusHistory.map StatusEntry.status
      = [Json.str "A", Json.str processingStatus, Json.str processingStatus, Json.str "B"] := rfl

/-- C5: evaluation on the raw-status sequence
`"initial status", "initial status", "done"` from a fresh session.  The
sentinel exemption keeps rule 1 from firing on the second fetch, but rule 2
then compares the sentinel against the closure-captured `statusMessage`
(the empty string, StatusPanel.js line 78) and appends a *second*
`"initial status"` entry, so the history gains three entries, not the two
the claim predicts; the displayed-text sequence is as claimed. -/
theorem c5_sentinel_second_fetch_appends :
    c5run2.statusHistory.map StatusEntry.status
      = [Json.str "initial status", Json.str "initial status"]
    ∧ c5run3.statusHistory.map StatusEntry.status
      = [Json.str "initial status", Json.str "initial status", Json.str "done"]
    ∧ c5run2.statusMessage = Json.str "initial status"
    ∧ c5run3.statusMessage = Json.str "done" := ⟨rfl, rfl, rfl, rfl⟩

/-- C4: one fetch cycle leaves the history untouched or appends exactly one
entry at its end (so existing entries are never mutated or reordered and
the length never decreases), and it preserves strict increase (hence
uniqueness) of the entry ids, which stay below the session counter. -/
theorem c4_history_append_only (now : Nat) (st : PollState) (r : FetchResult)
    (h : idsOk st) :
    ((pollLambda now st r).statusHistory = st.statusHistory
      ∨ ∃ e, (pollLambda now st r).statusHistory = st.statusHistory ++ [e])
    ∧ idsOk (pollLambda now st r) := by
  have hs := histStep_pollLambda now st r
  refine ⟨?_, idsOk_histStep h hs⟩
  rcases hs with ⟨h1, _⟩ | ⟨v, t, h1, _⟩
  · exact Or.inl h1
  · exact Or.inr ⟨_, h1⟩

/-- Witness for C4 at a concrete cycle. -/
theorem c4_witness :
    ((pollLambda 0 initialPollState (FetchResult.success true (statusBody "done"))).statusHistory
        = initialPollState.statusHistory
      ∨ ∃ e, (pollLambda 0 initialPollState
            (FetchResult.success true (statusBody "done"))).statusHistory
          = initialPollState.statusHistory ++ [e])
    ∧ idsOk (pollLambda 0 initialPollState (FetchResult.success true (statusBody "done"))) :=
  c4_history_append_only 0 initialPollState (FetchResult.success true (statusBody "done"))
    ⟨List.Pairwise.nil, by intro i hi; cases hi⟩
/-- C9: after any sequence of panel operations (fetch cycles, start, stop,
clear) from the mount state, the k-th history entry has id k: insertions
stamp the counter and bump it by one, and `clearHistory` resets counter and
history together. -/
theorem c9_id_equals_index (ops : List PanelOp) (k : Nat)
    (h : k < (applyOps initialPollState ops).statusHistory.length) :
    ((applyOps initialPollState ops).statusHistory.get ⟨k, h⟩).id = k := by
  have h0 : IdxInv initialPollState := by unfold IdxInv historyIds; rfl
  have hinv : IdxInv (applyOps initialPollState ops) := idxInv_applyOps h0 ops
  unfold IdxInv at hinv
  have hlen : (applyOps initialPollState ops).statusHistory.length
      = (applyOps initialPollState ops).historyIdCounter := by
    simpa [historyIds] using congrArg List.length hinv
  have hk : k < (applyOps initialPollState ops).historyIdCounter := hlen ▸ h
  have h4 : (historyIds (applyOps initialPollState ops))[k]? = some k := by
    rw [hinv, List.getElem?_range hk]
  rw [historyIds, List.getElem?_map, List.getElem?_eq_getElem h] at h4
  simpa using h4

/-- Helper for the C9 witness: the concrete run has a first entry. -/
theorem c9_witness_len :
    0 < (applyOps initialPollState
        [PanelOp.poll 0 (FetchResult.success true (statusBody "done"))]).statusHistory.length := by
  decide

/-- Witness for C9 at a concrete operation sequence and index. -/
theorem c9_witness :
    ((applyOps initialPollState
        [PanelOp.poll 0 (FetchResult.success true (statusBody "done"))]).statusHistory.get
      ⟨0, c9_witness_len⟩).id = 0 :=
  c9_id_equals_index [PanelOp.poll 0 (FetchResult.success true (statusBody "done"))] 0
    c9_witness_len

/-- C10: submitting the chat form with an input that trims to empty, or
while a send is in flight, changes nothing: no message is appended, the
notification event is not dispatched, no request is issued and the input
value (and all other state) is untouched. -/
theorem c10_submit_guard_noop (now : Nat) (st : ChatState)
    (h : jsTrim st.inputValue = "" ∨ st.isProcessing = true) :
    handleSubmit now st = (st, { notified := false, request := none }) := by
  rcases h with h | h <;> simp [handleSubmit, h]

/-- Witness for C10 on a whitespace-only input. -/
theorem c10_witness :
    handleSubmit 7 { initialChatState with inputValue := "   " }
      = ({ initialChatState with inputValue := "   " },
         { notified := false, request := none }) :=
  c10_submit_guard_noop 7 { initialChatState with inputValue := "   " } (Or.inl rfl)
/-- C6: `startPolling` is idempotent: a second call without an intervening
`stopPolling` returns the state unchanged (guard on the interval ref at
StatusPanel.js line 95), so at most one repeating schedule ever exists; a
first call on a state with no interval ref resets the last-observed tracker
to empty, marks the state active, performs one immediate fetch cycle on the
reset state, and registers exactly one repeating schedule with a 2000 ms
period. -/
theorem c6_start_idempotent (st : PollState) (now : Nat) (r : FetchResult)
    (now2 : Nat) (r2 : FetchResult) :
    startPolling now2 (startPolling now st r) r2 = startPolling now st r
    ∧ (st.pollIntervalRef = none →
        (startPolling now st r).pollIntervalRef = some 2000
        ∧ (startPolling now st r).activeTimers = st.activeTimers + 1
        ∧ (startPolling now st r).isPolling = true
        ∧ (startReset st).previousStatus = Json.str ""
        ∧ startPolling now st r
            = { pollLambda now (startReset st) r with
                pollIntervalRef := some 2000,
                activeTimers := (pollLambda now (startReset st) r).activeTimers + 1 }) := by
  have hfr := pollLambda_frame now (startReset st) r
  constructor
  · by_cases h : st.pollIntervalRef.isSome
    · have h1 : startPolling now st r = st := by
        unfold startPolling
        rw [if_pos h]
      rw [h1]
      unfold startPolling
      rw [if_pos h]
    · have hres : (startPolling now st r).pollIntervalRef.isSome = true := by
        unfold startPolling
        rw [if_neg h]
        rfl
      set Y := startPolling now st r with hY
      unfold startPolling
      rw [if_pos hres]
  · intro h
    have hns : ¬ st.pollIntervalRef.isSome = true := by rw [h]; exact Bool.false_ne_true
    have hmain : startPolling now st r
        = { pollLambda now (startReset st) r with
            pollIntervalRef := some 2000,
            activeTimers := (pollLambda now (startReset st) r).activeTimers + 1 } := by
      unfold startPolling
      rw [if_neg hns]
    refine ⟨by rw [hmain], ?_, by rw [hmain]; exact hfr.2.2.1, rfl, hmain⟩
    rw [hmain]
    show (pollLambda now (startReset st) r).activeTimers + 1 = st.activeTimers + 1
    rw [hfr.2.1]
    rfl

/-- Witness for C6 on a fresh state. -/
theorem c6_witness :
    startPolling 1 (startPolling 0 initialPollState FetchResult.networkError)
        FetchResult.networkError
      = startPolling 0 initialPollState FetchResult.networkError
    ∧ (startPolling 0 initialPollState FetchResult.networkError).pollIntervalRef
      = some 2000 :=
  ⟨(c6_start_idempotent initialPollState 0 FetchResult.networkError 1
      FetchResult.networkError).1,
   ((c6_start_idempotent initialPollState 0 FetchResult.networkError 1
      FetchResult.networkError).2 rfl).1⟩
/-- C7: `stopPolling` followed by `clearHistory` leaves an empty history, an
empty displayed text, the id counter at zero and the tracker reset; a
subsequent `startPolling` then behaves exactly as it does on the mount
state, so the first fetched status is compared against the empty tracker as
in a fresh session.  (The connection label differs — `"Stopped"` versus
`"Ready"` — but `startPolling` overwrites it.)  The hypothesis is the
invariant fact that a non-null interval ref accounts for exactly one live
timer. -/
theorem c7_stop_clear_fresh_restart (st : PollState) (now : Nat) (r : FetchResult)
    (h : st.activeTimers = if st.pollIntervalRef.isSome then 1 else 0) :
    (clearHistory (stopPolling st)).statusHistory = []
    ∧ (clearHistory (stopPolling st)).statusMessage = Json.str ""
    ∧ (clearHistory (stopPolling st)).historyIdCounter = 0
    ∧ (clearHistory (stopPolling st)).previousStatus = Json.str ""
    ∧ startPolling now (clearHistory (stopPolling st)) r
      = startPolling now initialPollState r := by
  refine ⟨rfl, rfl, rfl, rfl, ?_⟩
  have hreset : startReset (clearHistory (stopPolling st)) = startReset initialPollState := by
    unfold startReset clearHistory stopPolling initialPollState
    rw [h]
    cases hp : st.pollIntervalRef with
    | none => simp [hp]
    | some p => simp [hp]
  have e1 : startPolling now initialPollState r
      = { pollLambda now (startReset initialPollState) r with
          pollIntervalRef := some 2000,
          activeTimers := (pollLambda now (startReset initialPollState) r).activeTimers + 1 } := by
    unfold startPolling
    rw [if_neg (show ¬ initialPollState.pollIntervalRef.isSome = true from Bool.false_ne_true)]
  have e2 : startPolling now (clearHistory (stopPolling st)) r
      = { pollLambda now (startReset initialPollState) r with
          pollIntervalRef := some 2000,
          activeTimers := (pollLambda now (startReset initialPollState) r).activeTimers + 1 } := by
    unfold startPolling
    rw [if_neg (show ¬ (clearHistory (stopPolling st)).pollIntervalRef.isSome = true
        from Bool.false_ne_true)]
    rw [hreset]
  rw [e2, e1]

/-- Witness for C7 on a concrete stopped state. -/
theorem c7_witness :
    (clearHistory (stopPolling initialPollState)).statusHistory = []
    ∧ (clearHistory (stopPolling initialPollState)).statusMessage = Json.str ""
    ∧ (clearHistory (stopPolling initialPollState)).historyIdCounter = 0
    ∧ (clearHistory (stopPolling initialPollState)).previousStatus = Json.str ""
    ∧ startPolling 0 (clearHistory (stopPolling initialPollState)) FetchResult.networkError
      = startPolling 0 initialPollState FetchResult.networkError :=
  c7_stop_clear_fresh_restart initialPollState 0 FetchResult.networkError rfl
/-- `a || b` falls through on an absent property. -/
theorem jsOrElse_none (d : Json) : jsOrElse none d = d := rfl

